import Mathlib

/-!
Shallow embedding of the gnirehtet relay's ICMP path
(`src/relay-rust/src/relay/icmp_header.rs`,
`src/relay-rust/src/relay/icmp_connection.rs`,
`src/relay-rust/src/relay/socket.rs`) together with theorems checking the
natural-language specification against it.

Bytes are modelled as `Nat` (each in `0..256` on the legal domain), byte
slices as `List Nat`, machine integers as `Nat` with explicit truncation
where the source relies on wrap-around.  External collaborators that are
not part of the given sources (Selector, Router/Client, DatagramBuffer,
socket2) are modelled as an explicit effect trace plus oracle inputs for
their results.
-/

namespace Gnirehtet

/-! ## Byte-level codec: `icmp_header.rs` -/

/-- Modelled from the spec: `Ipv4HeaderData` (from `ipv4_header.rs`, which is
not among the given sources) is a detached owned copy of an IPv4 header
exposing, for the checksum computation, the packet total length
(`total_length()`, a `u16`) and the IPv4 header length
(`header_length()`, a `u8`). -/
structure Ipv4HeaderData where
  total_length : Nat
  header_length : Nat
deriving DecidableEq, Repr

/-- `BigEndian::read_u16(&data[2*i..2*(i+1)])`: the `i`-th big-endian 16-bit
word of a byte slice.  Out-of-range bytes read as `0`; the source instead
panics there, so theorems stay on inputs whose summed range is in bounds. -/
def readU16 (data : List Nat) (i : Nat) : Nat :=
  256 * data.getD (2 * i) 0 + data.getD (2 * i + 1) 0

/-- `IcmpHeaderMut::set_checksum`: `BigEndian::write_u16(&mut self.raw[2..4],
checksum)`.  A slice shorter than 4 bytes would panic in the source and is
modelled as unchanged; theorems assume `4 ≤ raw.length`. -/
def set_checksum (raw : List Nat) (checksum : Nat) : List Nat :=
  match raw with
  | a :: b :: _ :: _ :: rest => a :: b :: (checksum / 256 % 256) :: (checksum % 256) :: rest
  | short => short

/-- The carry-folding loop of `update_checksum`:
`while (sum & !0xffff) != 0 { sum = (sum & 0xffff) + (sum >> 16); }`.
For a `u32` value the loop guard `sum & 0xffff0000 ≠ 0` is exactly
`65536 ≤ sum`. -/
def foldCarry (sum : Nat) : Nat :=
  if sum < 65536 then sum else foldCarry (sum % 65536 + sum / 65536)
termination_by sum
decreasing_by
  simp_wf
  omega

/-- `!sum as u16` applied to a folded `u32` sum: flip all 32 bits, truncate to
16; equals `65535 - (sum % 65536)`. -/
def bitnot16 (sum : Nat) : Nat :=
  65535 - sum % 65536

/-- `IcmpHeaderMut::update_checksum(&mut self, ipv4_header_data, payload)`:
zero the checksum field, let `transport_length = total_length -
header_length`, sum the first `transport_length / 2` big-endian 16-bit
words of `raw ++ payload` into a `u32`, fold carries, store the bitwise
NOT truncated to 16 bits back into the checksum field.  Returns the
updated header slice. -/
def update_checksum (raw : List Nat) (ipv4_header_data : Ipv4HeaderData)
    (payload : List Nat) : List Nat :=
  let raw0 := set_checksum raw 0
  let transport_length := ipv4_header_data.total_length - ipv4_header_data.header_length
  let e := transport_length / 2
  let data := raw0 ++ payload
  let sum := (Finset.range e).sum (fun i => readU16 data i)
  set_checksum raw0 (bitnot16 (foldCarry sum))

/-- The checksum field of an ICMP header slice: big-endian 16-bit word at
byte offset 2 (word index 1). -/
def checksumField (raw : List Nat) : Nat :=
  readU16 raw 1

/-- The consecutive big-endian 16-bit words of a byte sequence, as the
specification speaks of them ("all 16-bit words of header and payload");
a trailing odd byte forms no complete word. -/
def words16 : List Nat → List Nat
  | a :: b :: rest => (256 * a + b) :: words16 rest
  | _ => []

/-- The checksum algorithm exactly as the specification documents it: set
the checksum field to zero; sum, as unsigned 32-bit accumulations, the
16-bit big-endian words of the header followed by the payload over the
range derived from the IPv4 total length minus the IPv4 header length;
fold carries by repeatedly adding the upper 16 bits into the lower 16
bits until none remain; the checksum is the bitwise NOT of the folded
sum truncated to 16 bits. -/
def specChecksumValue (raw : List Nat) (ipv4_header_data : Ipv4HeaderData)
    (payload : List Nat) : Nat :=
  let zeroed := set_checksum raw 0
  let wordCount := (ipv4_header_data.total_length - ipv4_header_data.header_length) / 2
  let sum := ((words16 (zeroed ++ payload)).take wordCount).sum
  bitnot16 (foldCarry sum)

/-- One verification pass of the same summation-with-carry-fold followed by
the final complement, run over a byte sequence whose checksum field is
left as stored (not zeroed). -/
def verifyPass (data : List Nat) (wordCount : Nat) : Nat :=
  bitnot16 (foldCarry ((Finset.range wordCount).sum (fun i => readU16 data i)))

/-! ## Connection state machine: `icmp_connection.rs`

The connection's interaction with the Selector, the Router (through the
weak `Client` reference) and the raw ICMP socket is modelled as an
explicit trace of effects; the outcomes of the socket operations, which
depend on the operating system, are oracle inputs. -/

/-- `mio::Ready` restricted to the two bits the connection inspects
(`is_readable`, `is_writable`). -/
structure Ready where
  readable : Bool
  writable : Bool
deriving DecidableEq, Repr

/-- `Ready::readable()`. -/
def Ready.readableOnly : Ready := ⟨true, false⟩

/-- `Ready::readable() | Ready::writable()`. -/
def Ready.readWrite : Ready := ⟨true, true⟩

/-- A socket address, as far as the embedding needs it: IPv4 address
(as a number) and port. -/
structure Addr where
  ip : Nat
  port : Nat
deriving DecidableEq, Repr

/-- `SocketAddr::new(IpAddr::V4(Ipv4Addr::new(0, 0, 0, 0)), 0)`. -/
def Addr.wildcard : Addr := ⟨0, 0⟩

/-- Observable calls the connection makes on its collaborators. -/
inductive Eff where
  | sockNew
  | setNonblocking
  | sockBind (addr : Addr)
  | sockConnect (addr : Addr)
  | selRegister (interests : Ready)
  | selReregister (interests : Ready)
  | selDeregister
  | sockWrite
  | sockRead
  | clientSend
  | routerRemove
deriving DecidableEq, Repr

/-- Outcome of one OS socket operation: success, `io::ErrorKind::WouldBlock`,
or any other I/O error. -/
inductive IoRes where
  | ok
  | wouldBlock
  | fatal
deriving DecidableEq, Repr

/-- The error side of an `io::Result<()>` as the connection distinguishes it:
`WouldBlock` versus everything else. -/
inductive IoErr where
  | wouldBlock
  | fatal
deriving DecidableEq, Repr

/-- `io::Result<()>`. -/
abbrev IoResult := Except IoErr Unit

/-- Modelled from the spec: `DatagramBuffer` (from `datagram_buffer.rs`,
which is not among the given sources) is a bounded FIFO queue of
datagrams; when appending would exceed the bound the datagram is
rejected and the buffer is left unchanged. -/
structure DatagramBuffer where
  capacity : Nat
  datagrams : List (List Nat)
deriving DecidableEq, Repr

/-- `DatagramBuffer::new(capacity)`. -/
def DatagramBuffer.new (capacity : Nat) : DatagramBuffer :=
  ⟨capacity, []⟩

/-- Bytes currently queued. -/
def DatagramBuffer.totalBytes (b : DatagramBuffer) : Nat :=
  (b.datagrams.map List.length).sum

/-- `DatagramBuffer::is_empty`. -/
def DatagramBuffer.is_empty (b : DatagramBuffer) : Bool :=
  b.datagrams.isEmpty

/-- Modelled from the spec: `DatagramBuffer::read_from(datagram)` appends
the datagram when it fits within the bound and otherwise fails, leaving
the queue unchanged (the caller drops the datagram). -/
def DatagramBuffer.read_from (b : DatagramBuffer) (datagram : List Nat) :
    Option DatagramBuffer :=
  if b.totalBytes + datagram.length ≤ b.capacity then
    some ⟨b.capacity, b.datagrams ++ [datagram]⟩
  else
    none

/-- Modelled from the spec: a successful `DatagramBuffer::write_to(socket)`
sends the front datagram to the socket and removes it from the queue. -/
def DatagramBuffer.pop (b : DatagramBuffer) : DatagramBuffer :=
  ⟨b.capacity, b.datagrams.tail⟩

/-- The mutable state of an `IcmpConnection`.  The flow id, the weak client
reference and the `Packetizer` template carry no state the theorems
observe and are represented by the effect trace; `idle_since` is an
`Instant`, modelled as a monotonic timestamp in nanoseconds. -/
structure IcmpConnection where
  interests : Ready
  token : Nat
  client_to_network : DatagramBuffer
  closed : Bool
  idle_since : Nat
deriving DecidableEq, Repr

/-- `IDLE_TIMEOUT_SECONDS`. -/
def IDLE_TIMEOUT_SECONDS : Nat := 2

/-- Nanoseconds per second, for `Duration::as_secs`. -/
def nsPerSec : Nat := 1000000000

/-- `IcmpConnection::touch`: refresh the idle timestamp to the current
instant. -/
def IcmpConnection.touch (c : IcmpConnection) (now : Nat) : IcmpConnection :=
  { c with idle_since := now }

/-- `IcmpConnection::close`: set the closed flag and deregister the socket
from the Selector; a deregistration error is only logged (the
connection state does not depend on it). -/
def IcmpConnection.close (c : IcmpConnection) : IcmpConnection × List Eff :=
  ({ c with closed := true }, [Eff.selDeregister])

/-- `IcmpConnection::remove_from_router`: upgrade the weak client reference
and erase this connection from the Router's flow map. -/
def IcmpConnection.remove_from_router (_c : IcmpConnection) : List Eff :=
  [Eff.routerRemove]

/-- `IcmpConnection::write`: `self.client_to_network.write_to(&mut
self.socket)?`; the socket outcome is the oracle `wr`.  On success the
front datagram has been handed to the socket. -/
def IcmpConnection.write (c : IcmpConnection) (wr : IoRes) :
    IcmpConnection × List Eff × IoResult :=
  match wr with
  | IoRes.ok => ({ c with client_to_network := c.client_to_network.pop },
      [Eff.sockWrite], Except.ok ())
  | IoRes.wouldBlock => (c, [Eff.sockWrite], Except.error IoErr.wouldBlock)
  | IoRes.fatal => (c, [Eff.sockWrite], Except.error IoErr.fatal)

/-- `IcmpConnection::read`: packetize one datagram from the socket (oracle
`rr`) and hand the rebuilt IPv4 packet to the client; a client-side
delivery failure is only logged and the packet dropped. -/
def IcmpConnection.read (c : IcmpConnection) (rr : IoRes) :
    IcmpConnection × List Eff × IoResult :=
  match rr with
  | IoRes.ok => (c, [Eff.sockRead, Eff.clientSend], Except.ok ())
  | IoRes.wouldBlock => (c, [Eff.sockRead], Except.error IoErr.wouldBlock)
  | IoRes.fatal => (c, [Eff.sockRead], Except.error IoErr.fatal)

/-- `IcmpConnection::process_send`: write; on `WouldBlock` return the error,
on any other error log it and close the connection, returning `Ok`. -/
def IcmpConnection.process_send (c : IcmpConnection) (wr : IoRes) :
    IcmpConnection × List Eff × IoResult :=
  match c.write wr with
  | (c1, t1, Except.ok _) => (c1, t1, Except.ok ())
  | (c1, t1, Except.error IoErr.wouldBlock) => (c1, t1, Except.error IoErr.wouldBlock)
  | (c1, t1, Except.error IoErr.fatal) =>
      let r := c1.close
      (r.1, t1 ++ r.2, Except.ok ())

/-- `IcmpConnection::process_receive`: read; on `WouldBlock` return the
error, on any other error log it and close the connection, returning
`Ok`. -/
def IcmpConnection.process_receive (c : IcmpConnection) (rr : IoRes) :
    IcmpConnection × List Eff × IoResult :=
  match c.read rr with
  | (c1, t1, Except.ok _) => (c1, t1, Except.ok ())
  | (c1, t1, Except.error IoErr.wouldBlock) => (c1, t1, Except.error IoErr.wouldBlock)
  | (c1, t1, Except.error IoErr.fatal) =>
      let r := c1.close
      (r.1, t1 ++ r.2, Except.ok ())

/-- `IcmpConnection::update_interests`: readable interest alone when the
outbound buffer is empty, readable and writable otherwise; reregister
with the Selector only when the interest set changed. -/
def IcmpConnection.update_interests (c : IcmpConnection) :
    IcmpConnection × List Eff :=
  let ready := if c.client_to_network.is_empty then Ready.readableOnly else Ready.readWrite
  if c.interests ≠ ready then
    ({ c with interests := ready }, [Eff.selReregister ready])
  else
    (c, [])

/-- `IcmpConnection::process`: the body of event handling.  `now` is the
current instant, `ev` the event's readiness bits, `wr` and `rr` the
socket oracle outcomes for the write and read paths. -/
def IcmpConnection.process (c : IcmpConnection) (now : Nat) (ev : Ready)
    (wr rr : IoRes) : IcmpConnection × List Eff × IoResult :=
  if c.closed then
    (c, [], Except.ok ())
  else
    let c1 := c.touch now
    if ev.readable || ev.writable then
      match (if ev.writable then c1.process_send wr else (c1, [], Except.ok ())) with
      | (c2, t2, Except.error e) => (c2, t2, Except.error e)
      | (c2, t2, Except.ok _) =>
        match (if !c2.closed && ev.readable then c2.process_receive rr
               else (c2, [], Except.ok ())) with
        | (c3, t3, Except.error e) => (c3, t2 ++ t3, Except.error e)
        | (c3, t3, Except.ok _) =>
          let r4 := if !c3.closed then c3.update_interests else (c3, [])
          let t5 := if r4.1.closed then r4.1.remove_from_router else []
          (r4.1, t2 ++ t3 ++ r4.2 ++ t5, Except.ok ())
    else
      let r2 := c1.close
      let t3 := if r2.1.closed then r2.1.remove_from_router else []
      (r2.1, r2.2 ++ t3, Except.ok ())

/-- `IcmpConnection::on_ready`: dispatch to `process`; `Ok` and `WouldBlock`
are absorbed, any other error hits the `panic!` branch.  The boolean
records whether that branch was reached. -/
def IcmpConnection.on_ready (c : IcmpConnection) (now : Nat) (ev : Ready)
    (wr rr : IoRes) : (IcmpConnection × List Eff) × Bool :=
  match c.process now ev wr rr with
  | (c1, t1, Except.ok _) => ((c1, t1), false)
  | (c1, t1, Except.error IoErr.wouldBlock) => ((c1, t1), false)
  | (c1, t1, Except.error IoErr.fatal) => ((c1, t1), true)

/-- `IcmpConnection::send_to_network`: append the packet payload to the
outbound buffer; on success update the Selector interests, on failure
only log and drop the datagram. -/
def IcmpConnection.send_to_network (c : IcmpConnection) (payload : List Nat) :
    IcmpConnection × List Eff :=
  match c.client_to_network.read_from payload with
  | some buf => ({ c with client_to_network := buf }).update_interests
  | none => (c, [])

/-- `IcmpConnection::is_expired`:
`self.idle_since.elapsed().as_secs() > IDLE_TIMEOUT_SECONDS`, with the
elapsed duration truncated to whole seconds by `as_secs`. -/
def IcmpConnection.is_expired (c : IcmpConnection) (now : Nat) : Bool :=
  (now - c.idle_since) / nsPerSec > IDLE_TIMEOUT_SECONDS

/-- `IcmpConnection::is_closed`. -/
def IcmpConnection.is_closed (c : IcmpConnection) : Bool :=
  c.closed

/-! ### Connection creation: `IcmpConnection::create` and `IcmpSocket::new`

`Socket::new`, `set_nonblocking`, `bind`, `connect` and
`Selector::register` call into socket2 / mio / the OS; whether each
succeeds is an oracle input. -/

/-- Which of the fallible steps of connection creation succeed. -/
structure CreateOracle where
  newOk : Bool
  nonblockingOk : Bool
  bindOk : Bool
  connectOk : Bool
  registerOk : Bool
deriving DecidableEq, Repr

/-- The step whose failure aborted creation. -/
inductive CreateErr where
  | socketNew
  | setNonblocking
  | bind
  | connect
  | register
deriving DecidableEq, Repr

/-- `IcmpSocket::new(Domain::IPV4, Type::RAW, Protocol::ICMPV4)` followed by
`IcmpConnection::create_socket`'s `bind` to the wildcard address and
`connect` to the rewritten destination.  `Socket::new` creates the raw
ICMPv4 socket and `set_nonblocking(true)` is applied before the socket
is returned. -/
def create_socket (o : CreateOracle) (rewritten_destination : Addr) :
    Except CreateErr Unit × List Eff :=
  if !o.newOk then
    (Except.error CreateErr.socketNew, [Eff.sockNew])
  else if !o.nonblockingOk then
    (Except.error CreateErr.setNonblocking, [Eff.sockNew, Eff.setNonblocking])
  else if !o.bindOk then
    (Except.error CreateErr.bind,
      [Eff.sockNew, Eff.setNonblocking, Eff.sockBind Addr.wildcard])
  else if !o.connectOk then
    (Except.error CreateErr.connect,
      [Eff.sockNew, Eff.setNonblocking, Eff.sockBind Addr.wildcard,
       Eff.sockConnect rewritten_destination])
  else
    (Except.ok (),
      [Eff.sockNew, Eff.setNonblocking, Eff.sockBind Addr.wildcard,
       Eff.sockConnect rewritten_destination])

/-- `IcmpConnection::create`: open, bind and connect the raw socket
(propagating any failure), build the connection state (read interest,
outbound buffer of capacity 4, not closed, idle timestamp now), then
register it with the Selector for its interests, storing the returned
token. -/
def IcmpConnection.create (o : CreateOracle) (rewritten_destination : Addr)
    (now : Nat) (token : Nat) : Except CreateErr IcmpConnection × List Eff :=
  match create_socket o rewritten_destination with
  | (Except.error e, t) => (Except.error e, t)
  | (Except.ok _, t) =>
    let conn : IcmpConnection :=
      { interests := Ready.readableOnly
        token := 0
        client_to_network := DatagramBuffer.new 4
        closed := false
        idle_since := now }
    if o.registerOk then
      (Except.ok { conn with token := token },
        t ++ [Eff.selRegister Ready.readableOnly])
    else
      (Except.error CreateErr.register, t ++ [Eff.selRegister Ready.readableOnly])

/-! ### Concrete sample states, used to instantiate theorems -/

/-- A freshly created open connection: read interest, empty outbound buffer
of capacity 4. -/
def sampleOpen : IcmpConnection :=
  ⟨Ready.readableOnly, 0, DatagramBuffer.new 4, false, 0⟩

/-- An already-closed connection. -/
def sampleClosed : IcmpConnection :=
  ⟨Ready.readableOnly, 0, DatagramBuffer.new 4, true, 11⟩

/-- An open connection whose outbound buffer is full: capacity 4 with a
4-byte datagram queued. -/
def sampleFull : IcmpConnection :=
  ⟨Ready.readableOnly, 0, ⟨4, [[1, 2, 3, 4]]⟩, false, 0⟩

/-- An open connection with a non-empty outbound buffer but only read
interest recorded, as right after a successful buffer append. -/
def samplePending : IcmpConnection :=
  ⟨Ready.readableOnly, 0, ⟨4, [[9]]⟩, false, 0⟩

/-! ## Lemmas about the carry fold -/

theorem foldCarry_lt (s : Nat) : foldCarry s < 65536 := by
  induction s using Nat.strong_induction_on with
  | _ s ih =>
    rw [foldCarry]
    split
    · assumption
    · exact ih _ (by omega)

theorem foldCarry_le (s : Nat) : foldCarry s ≤ s := by
  induction s using Nat.strong_induction_on with
  | _ s ih =>
    rw [foldCarry]
    split
    · exact Nat.le_refl s
    · exact Nat.le_trans (ih _ (by omega)) (by omega)

theorem foldCarry_mod (s : Nat) : foldCarry s % 65535 = s % 65535 := by
  induction s using Nat.strong_induction_on with
  | _ s ih =>
    rw [foldCarry]
    split
    · rfl
    · rw [ih _ (by omega)]
      conv_rhs => rw [show s = s % 65536 + s / 65536 + 65535 * (s / 65536) by omega]
      rw [Nat.add_mul_mod_self_left]

theorem foldCarry_pos (s : Nat) (h : 0 < s) : 0 < foldCarry s := by
  induction s using Nat.strong_induction_on with
  | _ s ih =>
    rw [foldCarry]
    split
    · exact h
    · exact ih _ (by omega) (by omega)

/-- A positive multiple of `65535` folds to exactly `65535`. -/
theorem foldCarry_eq_of_multiple (s : Nat) (h0 : 0 < s) (hm : s % 65535 = 0) :
    foldCarry s = 65535 := by
  have h1 := foldCarry_lt s
  have h2 := foldCarry_mod s
  have h3 := foldCarry_pos s h0
  omega

/-! ## Lemmas about 16-bit words of a byte list -/

theorem readU16_cons_cons (a b : Nat) (l : List Nat) (i : Nat) :
    readU16 (a :: b :: l) (i + 1) = readU16 l i := by
  have h1 : 2 * (i + 1) = 2 * i + 1 + 1 := by omega
  rw [readU16, readU16, h1]
  rfl

/-- On a slice long enough to contain them, the first `e` specification
words coincide with the source's indexed word reads. -/
theorem words16_take_sum (e : Nat) (data : List Nat) (h : 2 * e ≤ data.length) :
    ((words16 data).take e).sum = (Finset.range e).sum (fun i => readU16 data i) := by
  induction e generalizing data with
  | zero => simp
  | succ e ih =>
    match data with
    | [] => simp at h
    | [a] => simp at h; omega
    | a :: b :: rest =>
      have hlen : 2 * e ≤ rest.length := by
        simp only [List.length_cons] at h
        omega
      rw [Finset.sum_range_succ']
      have h0 : readU16 (a :: b :: rest) 0 = 256 * a + b := rfl
      calc ((words16 (a :: b :: rest)).take (e + 1)).sum
          = (256 * a + b) + ((words16 rest).take e).sum := by
            rw [words16]
            simp [List.sum_cons]
        _ = (256 * a + b) + (Finset.range e).sum (fun i => readU16 rest i) := by
            rw [ih rest hlen]
        _ = (Finset.range e).sum (fun i => readU16 (a :: b :: rest) (i + 1))
              + readU16 (a :: b :: rest) 0 := by
            rw [h0]
            simp only [readU16_cons_cons]
            omega

theorem set_checksum_length (raw : List Nat) (v : Nat) :
    (set_checksum raw v).length = raw.length := by
  match raw with
  | [] => rfl
  | [a] => rfl
  | [a, b] => rfl
  | [a, b, x] => rfl
  | a :: b :: x :: y :: rest => rfl

/-- Reading back the checksum field written by `set_checksum` returns the
written 16-bit value. -/
theorem checksumField_set_checksum (raw : List Nat) (v : Nat) (h : 4 ≤ raw.length)
    (hv : v < 65536) : checksumField (set_checksum raw v) = v := by
  rcases raw with _ | ⟨a, _ | ⟨b, _ | ⟨x, _ | ⟨y, rest⟩⟩⟩⟩
  · simp at h
  · simp at h
  · simp at h
  · simp at h
  · show 256 * (v / 256 % 256) + v % 256 = v
    omega

/-- Word reads at any index other than the checksum word do not depend on the
two checksum bytes. -/
theorem readU16_append_ne_one (a b x y x' y' : Nat) (rest payload : List Nat)
    (i : Nat) (hi : i ≠ 1) :
    readU16 ((a :: b :: x :: y :: rest) ++ payload) i
      = readU16 ((a :: b :: x' :: y' :: rest) ++ payload) i := by
  match i, hi with
  | 0, _ => rfl
  | 1, hi => exact absurd rfl hi
  | (n + 2), _ =>
    show readU16 (a :: b :: (x :: y :: (rest ++ payload))) (n + 1 + 1)
      = readU16 (a :: b :: (x' :: y' :: (rest ++ payload))) (n + 1 + 1)
    rw [readU16_cons_cons, readU16_cons_cons, readU16_cons_cons, readU16_cons_cons]

/-! ## C1: `update_checksum` implements the documented algorithm -/

/-- C1.  For every ICMP header slice (at least the 4 header bytes) and
payload whose declared transport length fits the available bytes,
`IcmpHeaderMut::update_checksum` stores into the checksum field exactly
the value of the documented algorithm: zero the checksum field, sum the
16-bit big-endian words of header followed by payload over the range
derived from the IPv4 total length minus the IPv4 header length as
unsigned 32-bit accumulations, fold carries by repeatedly adding the
upper 16 bits into the lower 16 bits, and take the bitwise NOT of the
folded sum truncated to 16 bits. -/
theorem update_checksum_stores_spec (raw : List Nat) (ipv4 : Ipv4HeaderData)
    (payload : List Nat) (hlen : 4 ≤ raw.length)
    (hfit : ipv4.total_length - ipv4.header_length ≤ raw.length + payload.length) :
    checksumField (update_checksum raw ipv4 payload)
      = specChecksumValue raw ipv4 payload := by
  have h4 : 4 ≤ (set_checksum raw 0).length := by
    rw [set_checksum_length]
    exact hlen
  have hbound : 2 * ((ipv4.total_length - ipv4.header_length) / 2)
      ≤ (set_checksum raw 0 ++ payload).length := by
    rw [List.length_append, set_checksum_length]
    omega
  show checksumField (set_checksum (set_checksum raw 0)
      (bitnot16 (foldCarry ((Finset.range ((ipv4.total_length - ipv4.header_length) / 2)).sum
        (fun i => readU16 (set_checksum raw 0 ++ payload) i)))))
    = bitnot16 (foldCarry (((words16 (set_checksum raw 0 ++ payload)).take
        ((ipv4.total_length - ipv4.header_length) / 2)).sum))
  rw [words16_take_sum _ _ hbound]
  exact checksumField_set_checksum _ _ h4 (by unfold bitnot16; omega)

/-- C1 witness: a concrete echo-request header and payload. -/
theorem update_checksum_stores_spec_witness :
    4 ≤ ([8, 0, 0, 0] : List Nat).length ∧
    (Ipv4HeaderData.mk 28 20).total_length - (Ipv4HeaderData.mk 28 20).header_length
      ≤ ([8, 0, 0, 0] : List Nat).length + ([1, 2, 3, 4] : List Nat).length ∧
    checksumField (update_checksum [8, 0, 0, 0] (Ipv4HeaderData.mk 28 20) [1, 2, 3, 4])
      = specChecksumValue [8, 0, 0, 0] (Ipv4HeaderData.mk 28 20) [1, 2, 3, 4] :=
  ⟨by decide, by decide,
    update_checksum_stores_spec [8, 0, 0, 0] (Ipv4HeaderData.mk 28 20) [1, 2, 3, 4]
      (by decide) (by decide)⟩

/-! ## C2: checksum self-verification law -/

/-- C2.  For every ICMP header (at least its 4 header bytes) and payload of
a well-formed packet (transport length at least the 4 header bytes and
fitting the available bytes), running the same 16-bit one's-complement
summation-with-carry-fold over the header with the checksum field set to
the value computed by `update_checksum` (instead of zero) yields, after
folding and complementing, exactly zero. -/
theorem update_checksum_self_verify (raw : List Nat) (ipv4 : Ipv4HeaderData)
    (payload : List Nat) (hlen : 4 ≤ raw.length)
    (htl : 4 ≤ ipv4.total_length - ipv4.header_length)
    (hfit : ipv4.total_length - ipv4.header_length ≤ raw.length + payload.length) :
    verifyPass (update_checksum raw ipv4 payload ++ payload)
      ((ipv4.total_length - ipv4.header_length) / 2) = 0 := by
  rcases raw with _ | ⟨a, _ | ⟨b, _ | ⟨x, _ | ⟨y, rest⟩⟩⟩⟩
  · simp at hlen
  · simp at hlen
  · simp at hlen
  · simp at hlen
  · have he2 : 2 ≤ (ipv4.total_length - ipv4.header_length) / 2 := by omega
    have hmem : 1 ∈ Finset.range ((ipv4.total_length - ipv4.header_length) / 2) := by
      rw [Finset.mem_range]
      omega
    -- the zeroed-checksum sum the source computes
    have hS0lt := foldCarry_lt ((Finset.range ((ipv4.total_length - ipv4.header_length) / 2)).sum
      (fun i => readU16 ((a :: b :: 0 :: 0 :: rest) ++ payload) i))
    have hS0le := foldCarry_le ((Finset.range ((ipv4.total_length - ipv4.header_length) / 2)).sum
      (fun i => readU16 ((a :: b :: 0 :: 0 :: rest) ++ payload) i))
    have hS0mod := foldCarry_mod ((Finset.range ((ipv4.total_length - ipv4.header_length) / 2)).sum
      (fun i => readU16 ((a :: b :: 0 :: 0 :: rest) ++ payload) i))
    set S0 := (Finset.range ((ipv4.total_length - ipv4.header_length) / 2)).sum
      (fun i => readU16 ((a :: b :: 0 :: 0 :: rest) ++ payload) i) with hS0def
    set F := foldCarry S0 with hFdef
    -- the stored header slice
    have hupd : update_checksum (a :: b :: x :: y :: rest) ipv4 payload
        = a :: b :: (bitnot16 F / 256 % 256) :: (bitnot16 F % 256) :: rest := rfl
    set vh := bitnot16 F / 256 % 256 with hvh
    set vl := bitnot16 F % 256 with hvl
    -- the verification sum differs from the zeroed sum exactly at word 1
    have hsplitV := Finset.sum_eq_sum_diff_singleton_add hmem
      (fun i => readU16 ((a :: b :: vh :: vl :: rest) ++ payload) i)
    have hsplit0 := Finset.sum_eq_sum_diff_singleton_add hmem
      (fun i => readU16 ((a :: b :: 0 :: 0 :: rest) ++ payload) i)
    have hcongr : ((Finset.range ((ipv4.total_length - ipv4.header_length) / 2)) \ {1}).sum
          (fun i => readU16 ((a :: b :: vh :: vl :: rest) ++ payload) i)
        = ((Finset.range ((ipv4.total_length - ipv4.header_length) / 2)) \ {1}).sum
          (fun i => readU16 ((a :: b :: 0 :: 0 :: rest) ++ payload) i) := by
      refine Finset.sum_congr rfl (fun i hi => ?_)
      rw [Finset.mem_sdiff, Finset.mem_singleton] at hi
      exact readU16_append_ne_one a b vh vl 0 0 rest payload i hi.2
    have hword1V : readU16 ((a :: b :: vh :: vl :: rest) ++ payload) 1
        = 256 * vh + vl := rfl
    have hword10 : readU16 ((a :: b :: 0 :: 0 :: rest) ++ payload) 1 = 0 := rfl
    have hbnot : bitnot16 F = 65535 - F := by
      unfold bitnot16
      omega
    have hvval : 256 * vh + vl = 65535 - F := by
      rw [hvh, hvl]
      omega
    have hSv : (Finset.range ((ipv4.total_length - ipv4.header_length) / 2)).sum
          (fun i => readU16 ((a :: b :: vh :: vl :: rest) ++ payload) i)
        = S0 + (65535 - F) := by
      rw [hsplitV, hcongr, hword1V, hvval, hS0def, hsplit0, hword10, Nat.add_zero]
    -- the verification sum is a positive multiple of 65535
    have hfold : foldCarry ((Finset.range ((ipv4.total_length - ipv4.header_length) / 2)).sum
          (fun i => readU16 ((a :: b :: vh :: vl :: rest) ++ payload) i)) = 65535 := by
      apply foldCarry_eq_of_multiple
      · omega
      · omega
    show bitnot16 (foldCarry ((Finset.range ((ipv4.total_length - ipv4.header_length) / 2)).sum
      (fun i => readU16 ((a :: b :: vh :: vl :: rest) ++ payload) i))) = 0
    rw [hfold]
    rfl

/-- C2 witness: the concrete echo-request packet verifies to zero. -/
theorem update_checksum_self_verify_witness :
    4 ≤ ([8, 0, 0, 0] : List Nat).length ∧
    4 ≤ (Ipv4HeaderData.mk 28 20).total_length - (Ipv4HeaderData.mk 28 20).header_length ∧
    (Ipv4HeaderData.mk 28 20).total_length - (Ipv4HeaderData.mk 28 20).header_length
      ≤ ([8, 0, 0, 0] : List Nat).length + ([1, 2, 3, 4] : List Nat).length ∧
    verifyPass (update_checksum [8, 0, 0, 0] (Ipv4HeaderData.mk 28 20) [1, 2, 3, 4] ++ [1, 2, 3, 4])
      (((Ipv4HeaderData.mk 28 20).total_length - (Ipv4HeaderData.mk 28 20).header_length) / 2)
      = 0 :=
  ⟨by decide, by decide, by decide,
    update_checksum_self_verify [8, 0, 0, 0] (Ipv4HeaderData.mk 28 20) [1, 2, 3, 4]
      (by decide) (by decide) (by decide)⟩

/-! ## Lemmas about the connection state machine -/

theorem update_interests_fst_closed (c : IcmpConnection) :
    (c.update_interests).1.closed = c.closed := by
  simp only [IcmpConnection.update_interests]
  split <;> split <;> rfl

theorem update_interests_fst_buffer (c : IcmpConnection) :
    (c.update_interests).1.client_to_network = c.client_to_network := by
  simp only [IcmpConnection.update_interests]
  split <;> split <;> rfl

theorem update_interests_snd_no_remove (c : IcmpConnection) :
    Eff.routerRemove ∉ (c.update_interests).2 := by
  simp only [IcmpConnection.update_interests]
  split <;> split <;> simp

/-! ## C3: double close -/

/-- C3 counterexample: `close` does not consult the closed flag; calling it
on an already-closed connection (here: the result of a first `close`)
still performs a Selector deregistration call, so the second call is not
a no-op as the claim states. -/
theorem close_second_call_deregisters_cex :
    ((sampleOpen.close).1.closed = true) ∧
    (((sampleOpen.close).1.close).2 = [Eff.selDeregister]) :=
  ⟨rfl, rfl⟩

/-- C3 amended.  `close` always sets the closed flag and always attempts a
Selector deregistration (whose failure is only logged): the first call
closes the connection, a second call leaves the connection state
unchanged (so close is idempotent on state and safe to repeat), but it
performs the Selector deregistration call again rather than being a
flag-guarded no-op. -/
theorem close_idempotent_on_state (c : IcmpConnection) :
    (c.close).1.closed = true ∧
    ((c.close).1.close).1 = (c.close).1 ∧
    (c.close).2 = [Eff.selDeregister] ∧
    ((c.close).1.close).2 = [Eff.selDeregister] :=
  ⟨rfl, rfl, rfl, rfl⟩

/-! ## C4: error/hangup events close, and closing removes from the Router -/

/-- C4.  On an open connection, an event carrying neither readable nor
writable readiness closes the connection; and every run of `process`
that ends with the connection closed performs the Router removal in the
same synchronous call (its trace contains the removal). -/
theorem process_close_removes_from_router (c : IcmpConnection) (now : Nat)
    (ev : Ready) (wr rr : IoRes) (h : c.closed = false) :
    (ev.readable = false → ev.writable = false →
      (c.process now ev wr rr).1.closed = true) ∧
    ((c.process now ev wr rr).1.closed = true →
      Eff.routerRemove ∈ (c.process now ev wr rr).2.1) := by
  rcases ev with ⟨er, ew⟩
  cases er <;> cases ew <;> cases wr <;> cases rr <;>
    simp [IcmpConnection.process, IcmpConnection.process_send,
      IcmpConnection.process_receive, IcmpConnection.write, IcmpConnection.read,
      IcmpConnection.close, IcmpConnection.touch, IcmpConnection.remove_from_router,
      h, update_interests_fst_closed]

/-- C4 witness: an open connection receiving an event with neither
readiness bit ends closed with the Router removal in its trace. -/
theorem process_close_removes_from_router_witness :
    sampleOpen.closed = false ∧
    ((Ready.mk false false).readable = false → (Ready.mk false false).writable = false →
      (sampleOpen.process 7 (Ready.mk false false) IoRes.ok IoRes.ok).1.closed = true) ∧
    ((sampleOpen.process 7 (Ready.mk false false) IoRes.ok IoRes.ok).1.closed = true →
      Eff.routerRemove ∈ (sampleOpen.process 7 (Ready.mk false false) IoRes.ok IoRes.ok).2.1) :=
  ⟨rfl,
    (process_close_removes_from_router sampleOpen 7 (Ready.mk false false) IoRes.ok IoRes.ok rfl).1,
    (process_close_removes_from_router sampleOpen 7 (Ready.mk false false) IoRes.ok IoRes.ok rfl).2⟩

/-! ## C5: events on a closed connection are no-ops -/

/-- C5.  A readiness event delivered to a connection whose closed flag is
set is a complete no-op: the state is unchanged (in particular the
activity timestamp keeps its old value), no collaborator call of any
kind appears in the trace, and the panic branch is not reached. -/
theorem on_ready_closed_noop (c : IcmpConnection) (now : Nat) (ev : Ready)
    (wr rr : IoRes) (h : c.closed = true) :
    c.on_ready now ev wr rr = ((c, []), false) := by
  simp [IcmpConnection.on_ready, IcmpConnection.process, h]

/-- C5 witness: a concrete closed connection ignores a read-and-write-ready
event. -/
theorem on_ready_closed_noop_witness :
    sampleClosed.closed = true ∧
    sampleClosed.on_ready 42 Ready.readWrite IoRes.ok IoRes.ok
      = ((sampleClosed, []), false) :=
  ⟨rfl, on_ready_closed_noop sampleClosed 42 Ready.readWrite IoRes.ok IoRes.ok rfl⟩

/-! ## C6: connection creation -/

/-- C6.  `IcmpConnection::create` either fails or yields a live connection:
when opening, making non-blocking, binding or connecting the raw socket
fails, the result is an error and no Selector registration was
attempted; when every step succeeds, the connection holds read interest,
an empty outbound buffer of capacity 4, is not closed, carries the
creation timestamp and the Selector token, and the trace is exactly:
create the raw ICMPv4 socket, set it non-blocking, bind it to the
wildcard local address, connect it to the rewritten destination, and
register it with the Selector for read interest. -/
theorem create_contract (o : CreateOracle) (dest : Addr) (now token : Nat) :
    ((o.newOk && o.nonblockingOk && o.bindOk && o.connectOk) = false →
      (∀ conn : IcmpConnection,
        (IcmpConnection.create o dest now token).1 ≠ Except.ok conn) ∧
      (∀ r : Ready, Eff.selRegister r ∉ (IcmpConnection.create o dest now token).2)) ∧
    ((o.newOk && o.nonblockingOk && o.bindOk && o.connectOk && o.registerOk) = true →
      (IcmpConnection.create o dest now token).1
        = Except.ok ⟨Ready.readableOnly, token, DatagramBuffer.new 4, false, now⟩ ∧
      (IcmpConnection.create o dest now token).2
        = [Eff.sockNew, Eff.setNonblocking, Eff.sockBind Addr.wildcard,
           Eff.sockConnect dest, Eff.selRegister Ready.readableOnly]) := by
  rcases o with ⟨n, nb, bi, co, re⟩
  cases n <;> cases nb <;> cases bi <;> cases co <;> cases re <;>
    simp [IcmpConnection.create, create_socket, DatagramBuffer.new]

/-- C6 witness: a failed `bind` yields an error with no registration; the
all-success oracle yields the live connection and the full trace. -/
theorem create_contract_witness :
    ((∀ conn : IcmpConnection,
        (IcmpConnection.create ⟨true, true, false, true, true⟩ ⟨167837955, 7⟩ 5 3).1
          ≠ Except.ok conn) ∧
      (∀ r : Ready,
        Eff.selRegister r ∉ (IcmpConnection.create ⟨true, true, false, true, true⟩ ⟨167837955, 7⟩ 5 3).2)) ∧
    ((IcmpConnection.create ⟨true, true, true, true, true⟩ ⟨167837955, 7⟩ 5 3).1
        = Except.ok ⟨Ready.readableOnly, 3, DatagramBuffer.new 4, false, 5⟩ ∧
      (IcmpConnection.create ⟨true, true, true, true, true⟩ ⟨167837955, 7⟩ 5 3).2
        = [Eff.sockNew, Eff.setNonblocking, Eff.sockBind Addr.wildcard,
           Eff.sockConnect ⟨167837955, 7⟩, Eff.selRegister Ready.readableOnly]) :=
  ⟨(create_contract ⟨true, true, false, true, true⟩ ⟨167837955, 7⟩ 5 3).1 rfl,
    (create_contract ⟨true, true, true, true, true⟩ ⟨167837955, 7⟩ 5 3).2 rfl⟩

/-! ## C7: a full buffer drops the datagram without tearing down the flow -/

/-- C7.  When appending a payload to the bounded outbound buffer fails,
`send_to_network` only drops the datagram: the connection state is
completely unchanged (in particular the closed flag stays false and the
buffer keeps its contents), no collaborator call is made, and no error
propagates (the function returns normally). -/
theorem send_to_network_drop_on_full (c : IcmpConnection) (payload : List Nat)
    (hopen : c.closed = false)
    (hfull : c.client_to_network.read_from payload = none) :
    c.send_to_network payload = (c, []) ∧
    (c.send_to_network payload).1.closed = false ∧
    (c.send_to_network payload).1.client_to_network = c.client_to_network := by
  simp [IcmpConnection.send_to_network, hfull, hopen]

/-- C7 witness: a connection whose capacity-4 buffer already holds 4 bytes
drops a further 1-byte datagram. -/
theorem send_to_network_drop_on_full_witness :
    sampleFull.closed = false ∧
    sampleFull.client_to_network.read_from [9] = none ∧
    sampleFull.send_to_network [9] = (sampleFull, []) :=
  ⟨rfl, by decide,
    (send_to_network_drop_on_full sampleFull [9] rfl (by decide)).1⟩

/-! ## C8: interest set tracks buffer emptiness -/

/-- C8.  On an open connection, `update_interests` records exactly read
interest when the outbound buffer is empty and exactly read-plus-write
interest when it is non-empty, and it calls the Selector's reregister
exactly when this interest set differs from the previously recorded
one (with the new interest set). -/
theorem update_interests_contract (c : IcmpConnection) (_hopen : c.closed = false) :
    (c.update_interests).1.interests
      = (if c.client_to_network.is_empty then Ready.readableOnly else Ready.readWrite) ∧
    (c.update_interests).2
      = (if c.interests
            = (if c.client_to_network.is_empty then Ready.readableOnly else Ready.readWrite)
         then []
         else [Eff.selReregister
           (if c.client_to_network.is_empty then Ready.readableOnly else Ready.readWrite)]) := by
  simp only [IcmpConnection.update_interests]
  by_cases hemp : c.client_to_network.is_empty <;>
    simp only [hemp, if_true, if_false, Bool.false_eq_true, ite_false, ite_true] <;>
    split <;> simp_all

/-- C8 witness: a non-empty buffer with only read interest recorded forces a
reregister for read-plus-write. -/
theorem update_interests_contract_witness :
    samplePending.closed = false ∧
    (samplePending.update_interests).1.interests
      = (if samplePending.client_to_network.is_empty then Ready.readableOnly
         else Ready.readWrite) ∧
    (samplePending.update_interests).2
      = (if samplePending.interests
            = (if samplePending.client_to_network.is_empty then Ready.readableOnly
               else Ready.readWrite)
         then []
         else [Eff.selReregister
           (if samplePending.client_to_network.is_empty then Ready.readableOnly
            else Ready.readWrite)]) :=
  ⟨rfl, (update_interests_contract samplePending rfl).1,
    (update_interests_contract samplePending rfl).2⟩

/-! ## C9: expiry threshold -/

/-- C9 counterexample: with 2.5 seconds elapsed since the last activity the
elapsed time exceeds the 2-second threshold, yet `is_expired` returns
false, because `as_secs` truncates the elapsed duration to whole
seconds before the comparison. -/
theorem is_expired_subsecond_cex :
    IcmpConnection.is_expired sampleOpen 2500000000 = false ∧
    IDLE_TIMEOUT_SECONDS * nsPerSec < 2500000000 - sampleOpen.idle_since := by
  constructor
  · rfl
  · decide

/-- C9 amended.  `is_expired` is true exactly when the elapsed time since
the last activity, truncated to whole seconds, exceeds 2 — that is,
when at least 3 full seconds have elapsed. -/
theorem is_expired_amended (c : IcmpConnection) (now : Nat) :
    c.is_expired now = true ↔ 3 * nsPerSec ≤ now - c.idle_since := by
  simp only [IcmpConnection.is_expired, nsPerSec, IDLE_TIMEOUT_SECONDS,
    decide_eq_true_eq, gt_iff_lt]
  omega

/-! ## C10: `process` never returns a non-WouldBlock error -/

/-- C10.  For every readiness event and every socket outcome, `process`
returns either success or a `WouldBlock` error — every other socket
error is absorbed by closing the connection inside `process_send` or
`process_receive` — so the panic branch of `on_ready` for unexpected
errors is never reached. -/
theorem process_never_fatal (c : IcmpConnection) (now : Nat) (ev : Ready)
    (wr rr : IoRes) :
    ((c.process now ev wr rr).2.2 = Except.ok () ∨
      (c.process now ev wr rr).2.2 = Except.error IoErr.wouldBlock) ∧
    (c.on_ready now ev wr rr).2 = false := by
  rcases ev with ⟨er, ew⟩
  by_cases h : c.closed <;>
    cases er <;> cases ew <;> cases wr <;> cases rr <;>
      simp [IcmpConnection.on_ready, IcmpConnection.process, IcmpConnection.process_send,
        IcmpConnection.process_receive, IcmpConnection.write, IcmpConnection.read,
        IcmpConnection.close, IcmpConnection.touch, IcmpConnection.remove_from_router, h]

end Gnirehtet
